import Mathlib

/-!
Verification of `infojobs_campaign_analyst.py`: a shallow embedding of the
column-normalisation + metric-derivation pipeline and its reporter, with
theorems settling the spec's claims about it.

Numeric cells are modelled as rationals (`ℚ`); the pandas `None`/`NaN` marker
for an undefined CPA is modelled as `Option ℚ`. A pandas `DataFrame` is
modelled as a list of typed rows plus presence flags for each canonical
column; Python exceptions (`ValueError`, `KeyError`) are modelled with
`Except String`.
-/

/-! ## String utilities (Python `str.strip`, `str.lower`, `in`, `==`) -/

/-- `strStartsWith hay needle`: `needle` is a prefix of `hay` (on char lists). -/
def strStartsWith : List Char → List Char → Bool
  | _, [] => true
  | [], _ :: _ => false
  | a :: as, b :: bs => a == b && strStartsWith as bs

/-- `strContainsSub hay needle`: Python `needle in hay` (substring test). -/
def strContainsSub : List Char → List Char → Bool
  | [], needle => needle.isEmpty
  | h :: t, needle => strStartsWith (h :: t) needle || strContainsSub t needle

/-- Python `col.strip()`: drop leading and trailing whitespace. -/
def stripChars (l : List Char) : List Char :=
  ((l.dropWhile Char.isWhitespace).reverse.dropWhile Char.isWhitespace).reverse

/-- Python `col.strip().lower()` applied to a header, as a char list.
(ASCII lowering, which covers every header the program documents.) -/
def canon (col : String) : List Char :=
  stripChars (col.data.map Char.toLower)

/-- `hasTok low tok`: Python `tok in low` for a canonicalised header. -/
def hasTok (low : List Char) (tok : String) : Bool :=
  strContainsSub low tok.data

/-! ## Column normaliser (`normalise_columns`) -/

/-- The rule chain of `normalise_columns` applied to one header: the ordered
`if`/`elif` substring and equality tests of the source, first match wins;
`none` when no rule matches (the header is left unmapped). -/
def normaliseHeader (col : String) : Option String :=
  let low := canon col
  if hasTok low "line item" || hasTok low "campaign" || hasTok low "puesto" then
    some "campaign"
  else if hasTok low "imp" then some "imps"
  else if hasTok low "click" then some "clicks"
  else if hasTok low "lead" || hasTok low "candid" || hasTok low "application" then
    some "leads"
  else if hasTok low "total cost" ||
      ((hasTok low "cost" || hasTok low "gasto") && hasTok low "total") then
    some "cost"
  else if low = "cost".data || low = "costo".data then some "cost"
  else if low = "ctr".data then some "ctr"
  else if low = "cvr".data then some "cvr"
  else if low = "cpa".data then some "cpa"
  else none

/-- `df.rename(columns=col_map)` at the header level: each header is replaced
by its canonical name when some rule matched, kept unchanged otherwise. -/
def normalise_columns (headers : List String) : List String :=
  headers.map (fun h => (normaliseHeader h).getD h)

/-- The canonical schema of the tool. -/
def canonicalHeaders : List String :=
  ["campaign", "imps", "clicks", "leads", "cost", "ctr", "cvr", "cpa"]

/-- The disjunction of the four rules that precede the cost rules
(campaign, imps, clicks, leads), exactly as the source tests them. -/
def earlierRuleMatches (col : String) : Bool :=
  let low := canon col
  (hasTok low "line item" || hasTok low "campaign" || hasTok low "puesto") ||
    hasTok low "imp" || hasTok low "click" ||
    (hasTok low "lead" || hasTok low "candid" || hasTok low "application")

/-- The cost condition exactly as the claim words it: the header (trimmed,
lower-cased) contains "total cost", or contains both "cost" and "total",
or equals "cost" or "costo". -/
def costClaimCondition (col : String) : Bool :=
  let low := canon col
  hasTok low "total cost" || (hasTok low "cost" && hasTok low "total") ||
    decide (low = "cost".data) || decide (low = "costo".data)

/-- The cost condition as the code actually has it: the claim's condition
plus the alternative that the header contains both "gasto" and "total". -/
def costRuleAmended (col : String) : Bool :=
  let low := canon col
  hasTok low "total cost" || (hasTok low "cost" && hasTok low "total") ||
    (hasTok low "gasto" && hasTok low "total") ||
    decide (low = "cost".data) || decide (low = "costo".data)

/-! ## Data model

A row of the table after normalisation. Each numeric cell is a rational;
`cpa` is `Option ℚ` because the source stores `None` there when `leads ≤ 0`.
A field is only meaningful when the frame's presence flag for its column is
`true`. -/

structure Row where
  campaign : String
  imps : ℚ
  clicks : ℚ
  leads : ℚ
  cost : ℚ
  ctr : ℚ
  cvr : ℚ
  cpa : Option ℚ
deriving DecidableEq

/-- A pandas `DataFrame` restricted to the canonical schema: presence flags
for each canonical column, plus the rows. -/
structure DataFrame where
  hasImps : Bool
  hasClicks : Bool
  hasLeads : Bool
  hasCost : Bool
  hasCtr : Bool
  hasCvr : Bool
  hasCpa : Bool
  rows : List Row
deriving DecidableEq

/-! ## Metric calculator (`compute_metrics`) -/

/-- The `ValueError` message of `compute_metrics`, verbatim: a fixed string
naming all three required columns. -/
def reqColsMsg : String :=
  "Missing one of required columns: \x27imps\x27, \x27clicks\x27, \x27leads\x27"

/-- One row of `df[\x27ctr\x27] = (clicks / imps).where(imps > 0, 0)`. -/
def computeCtrRow (r : Row) : Row :=
  { r with ctr := if 0 < r.imps then r.clicks / r.imps else 0 }

/-- One row of `df[\x27cvr\x27] = (leads / clicks).where(clicks > 0, 0)`. -/
def computeCvrRow (r : Row) : Row :=
  { r with cvr := if 0 < r.clicks then r.leads / r.clicks else 0 }

/-- One row of `df[\x27cpa\x27] = (cost / leads).where(leads > 0, None)`. -/
def computeCpaRow (r : Row) : Row :=
  { r with cpa := if 0 < r.leads then some (r.cost / r.leads) else none }

/-- `compute_metrics`: fails when a required canonical column is absent;
otherwise adds `ctr`, `cvr` when absent, and `cpa` when `cost` is present
and `cpa` absent. -/
def compute_metrics (df : DataFrame) : Except String DataFrame :=
  if !df.hasImps || !df.hasClicks || !df.hasLeads then
    .error reqColsMsg
  else
    let df := if df.hasCtr then df else
      { df with hasCtr := true, rows := df.rows.map computeCtrRow }
    let df := if df.hasCvr then df else
      { df with hasCvr := true, rows := df.rows.map computeCvrRow }
    let df := if df.hasCost && !df.hasCpa then
      { df with hasCpa := true, rows := df.rows.map computeCpaRow }
    else df
    .ok df

/-! ## Overall summary (`print_overall_summary`) -/

/-- Arithmetic mean of a list of rationals (pandas `.mean()` on a nonempty
series; the program never compares against the mean of an empty one). -/
def meanQ (xs : List ℚ) : ℚ := xs.sum / xs.length

/-- `df[\x27ctr\x27].mean()`. -/
def dfMeanCtr (df : DataFrame) : ℚ := meanQ (df.rows.map (fun r => r.ctr))

/-- `df[\x27cvr\x27].mean()`. -/
def dfMeanCvr (df : DataFrame) : ℚ := meanQ (df.rows.map (fun r => r.cvr))

/-- `df[\x27cpa\x27].dropna().mean() if \x27cpa\x27 in df else None`. -/
def dfMeanCpa (df : DataFrame) : Option ℚ :=
  if df.hasCpa then some (meanQ (df.rows.filterMap (fun r => r.cpa))) else none

/-- The spec-side reading of the mean-cpa aggregation: the mean over exactly
the rows whose cpa is non-null, of their cpa values. -/
def specNonNullCpaValues (rows : List Row) : List ℚ :=
  (rows.filter (fun r => r.cpa.isSome)).map (fun r => r.cpa.getD 0)

/-! ## Diagnosis (`diagnose_row`, `print_detailed_recommendations`) -/

/-- Issue text appended on `ctr < mean_ctr * 0.6`. -/
def msgLowCtr : String :=
  "CTR muy bajo → poca atracción en el listado (título/beneficios mejorables)."

/-- Issue text appended on `cvr < mean_cvr * 0.6`. -/
def msgLowCvr : String :=
  "CVR bajo → muchos clics pero pocas candidaturas (oferta poco atractiva o requisitos mal planteados)."

/-- Issue text appended on `pd.notna(cpa) and cpa > mean_cpa * 1.5`. -/
def msgHighCpa : String :=
  "CPA muy alto → coste por candidatura poco eficiente, revisar inversión o segmentación."

/-- Issue text appended when no other issue fired. -/
def msgBalanced : String :=
  "Rendimiento equilibrado o por encima de la media."

/-- `diagnose_row`: the heuristic issue list for one row. `mean_cpa` is a
rational because on every path of the program that reaches the cpa
comparison, the mean was taken over a list containing this row's non-null
cpa, hence over a nonempty list. -/
def diagnose_row (r : Row) (mean_ctr mean_cvr mean_cpa : ℚ) : List String :=
  let issues :=
    (if r.ctr < mean_ctr * 0.6 then [msgLowCtr] else []) ++
    (if r.cvr < mean_cvr * 0.6 then [msgLowCvr] else []) ++
    (match r.cpa with
     | some c => if c > mean_cpa * 1.5 then [msgHighCpa] else []
     | none => [])
  if issues = [] then [msgBalanced] else issues

/-- The `KeyError` raised by indexing a row label absent from the frame. -/
def keyErr (c : String) : String := "KeyError: \x27" ++ c ++ "\x27"

/-- `print_detailed_recommendations`, reduced to the data it computes: the
issue list per row. It first takes the ctr/cvr means (a `KeyError` if those
columns are absent), then for each row reads `row[\x27ctr\x27]`,
`row[\x27cvr\x27]` and — unguarded — `row[\x27cpa\x27]`, which raises
`KeyError` when the frame has no cpa column and at least one row exists. -/
def diagnoseRows (df : DataFrame) : List Row → Except String (List (List String))
  | [] => .ok []
  | r :: rs =>
    if !df.hasCpa then .error (keyErr "cpa")
    else
      match diagnoseRows df rs with
      | .error e => .error e
      | .ok rest =>
        .ok (diagnose_row r (dfMeanCtr df) (dfMeanCvr df)
          ((dfMeanCpa df).getD 0) :: rest)

/-- `print_detailed_recommendations` proper: takes the ctr/cvr means (a
`KeyError` if those columns are absent), then loops over the rows. -/
def print_detailed_recommendations (df : DataFrame) :
    Except String (List (List String)) :=
  if !df.hasCtr then .error (keyErr "ctr")
  else if !df.hasCvr then .error (keyErr "cvr")
  else diagnoseRows df df.rows

/-- The erroring tail of `main` after normalisation: `compute_metrics`
followed by the per-campaign diagnosis (the summary and rankings in between
only print and never fail). -/
def analyse (df : DataFrame) : Except String (List (List String)) :=
  match compute_metrics df with
  | .error e => .error e
  | .ok df2 => print_detailed_recommendations df2

/-! ## Top/Bottom ranking (`show_top_bottom`) -/

/-- The cell of row `r` in metric column `m`, `none` for a null cpa
(pandas `nsmallest`/`nlargest` drop NaN entries). -/
def metricValue (m : String) (r : Row) : Option ℚ :=
  if m = "ctr" then some r.ctr
  else if m = "cvr" then some r.cvr
  else if m = "cpa" then r.cpa
  else none

/-- `metric in df` for the three metric columns the program ranks by. -/
def dfHasMetric (df : DataFrame) (m : String) : Bool :=
  if m = "ctr" then df.hasCtr
  else if m = "cvr" then df.hasCvr
  else if m = "cpa" then df.hasCpa
  else false

/-- The sort key: the metric value of a row known to have one. -/
def mval (m : String) (r : Row) : ℚ := (metricValue m r).getD 0

/-- The rows that have a (non-null) value in metric `m`. -/
def metricRows (m : String) (rows : List Row) : List Row :=
  rows.filter (fun r => (metricValue m r).isSome)

/-- Ascending comparison on the metric key. -/
def ascBy (m : String) : Row → Row → Prop :=
  fun a b => mval m a ≤ mval m b

/-- Descending comparison on the metric key. -/
def descBy (m : String) : Row → Row → Prop :=
  fun a b => mval m b ≤ mval m a

instance (m : String) : DecidableRel (ascBy m) :=
  fun a b => inferInstanceAs (Decidable (mval m a ≤ mval m b))

instance (m : String) : DecidableRel (descBy m) :=
  fun a b => inferInstanceAs (Decidable (mval m b ≤ mval m a))

instance (m : String) : IsTotal Row (ascBy m) :=
  ⟨fun a b => le_total (mval m a) (mval m b)⟩

instance (m : String) : IsTrans Row (ascBy m) :=
  ⟨fun _ _ _ h1 h2 => le_trans h1 h2⟩

instance (m : String) : IsTotal Row (descBy m) :=
  ⟨fun a b => le_total (mval m b) (mval m a)⟩

instance (m : String) : IsTrans Row (descBy m) :=
  ⟨fun _ _ _ h1 h2 => le_trans h2 h1⟩

/-- `df.nsmallest(n, m)`: the `n` rows of smallest metric value, ties kept
in first-occurrence order (a stable ascending sort, then `take n`). -/
def nsmallest (n : Nat) (m : String) (rows : List Row) : List Row :=
  (List.insertionSort (ascBy m) (metricRows m rows)).take n

/-- `df.nlargest(n, m)`: the `n` rows of largest metric value, ties kept in
first-occurrence order (a stable descending sort, then `take n`). -/
def nlargest (n : Nat) (m : String) (rows : List Row) : List Row :=
  (List.insertionSort (descBy m) (metricRows m rows)).take n

/-- `show_top_bottom`, reduced to the data it prints: `none` when the metric
column is absent (the source prints a message and returns), otherwise the
pair (best, worst) — for `"cpa"` best = `nsmallest`, worst = `nlargest`;
for every other metric the reverse. -/
def show_top_bottom (df : DataFrame) (metric : String) (top_n : Nat) :
    Option (List Row × List Row) :=
  if !dfHasMetric df metric then none
  else if metric = "cpa" then
    some (nsmallest top_n metric df.rows, nlargest top_n metric df.rows)
  else
    some (nlargest top_n metric df.rows, nsmallest top_n metric df.rows)

/-- `sel` consists of `n` rows of the pool (all of them if the pool is
shorter) whose metric values are lower-or-equal to every unselected row's. -/
def isBottomSelection (m : String) (n : Nat) (pool sel : List Row) : Prop :=
  sel.length = min n pool.length ∧
    ∃ rest, (sel ++ rest).Perm pool ∧
      ∀ a ∈ sel, ∀ b ∈ rest, mval m a ≤ mval m b

/-- `sel` consists of `n` rows of the pool (all of them if the pool is
shorter) whose metric values are greater-or-equal to every unselected
row's. -/
def isTopSelection (m : String) (n : Nat) (pool sel : List Row) : Prop :=
  sel.length = min n pool.length ∧
    ∃ rest, (sel ++ rest).Perm pool ∧
      ∀ a ∈ sel, ∀ b ∈ rest, mval m b ≤ mval m a

/-! ## Concrete frames used by the claims -/

/-- Input row A of the end-to-end example. -/
def rowA : Row :=
  { campaign := "A", imps := 1000, clicks := 20, leads := 2, cost := 100,
    ctr := 0, cvr := 0, cpa := none }

/-- Input row B of the end-to-end example. -/
def rowB : Row :=
  { campaign := "B", imps := 1000, clicks := 5, leads := 0, cost := 50,
    ctr := 0, cvr := 0, cpa := none }

/-- The end-to-end example table: canonical columns campaign, imps, clicks,
leads, cost; no precomputed ctr/cvr/cpa. -/
def exDf : DataFrame :=
  { hasImps := true, hasClicks := true, hasLeads := true, hasCost := true,
    hasCtr := false, hasCvr := false, hasCpa := false, rows := [rowA, rowB] }

/-- The expected output of `compute_metrics` on the example table. -/
def exDf2 : DataFrame :=
  { hasImps := true, hasClicks := true, hasLeads := true, hasCost := true,
    hasCtr := true, hasCvr := true, hasCpa := true,
    rows :=
      [{ rowA with ctr := 1/50, cvr := 1/10, cpa := some 50 },
       { rowB with ctr := 1/200, cvr := 0, cpa := none }] }

/-- A table with the required columns but no cost column. -/
def dfNoCost : DataFrame :=
  { hasImps := true, hasClicks := true, hasLeads := true, hasCost := false,
    hasCtr := false, hasCvr := false, hasCpa := false, rows := [rowA] }

/-- A table whose leads column is missing (imps and clicks present). -/
def dfMissingLeads : DataFrame :=
  { hasImps := true, hasClicks := true, hasLeads := false, hasCost := true,
    hasCtr := false, hasCvr := false, hasCpa := false, rows := [rowA] }

/-- A ranking-example row with the given campaign name and cpa value. -/
def rowW (name : String) (c : ℚ) : Row :=
  { campaign := name, imps := 0, clicks := 0, leads := 0, cost := 0,
    ctr := 0, cvr := 0, cpa := some c }

/-- A four-row table used to exercise the cpa ranking. -/
def dfC6 : DataFrame :=
  { hasImps := true, hasClicks := true, hasLeads := true, hasCost := true,
    hasCtr := true, hasCvr := true, hasCpa := true,
    rows := [rowW "W1" 4, rowW "W2" 1, rowW "W3" 3, rowW "W4" 2] }

/-! ## Theorems -/

/-- Case analysis of the tail of the `normaliseHeader` rule chain: once the
four earlier rules have failed, the header maps to `cost` exactly when the
flattened cost condition holds. -/
lemma costBranch (c1 c2 c3 c4 b1 b2 : Bool) (q1 q2 q3 : Prop)
    [Decidable q1] [Decidable q2] [Decidable q3] :
    ((if c1 || ((c2 || c3) && c4) then some "cost"
      else if b1 || b2 then some "cost"
      else if q1 then some "ctr"
      else if q2 then some "cvr"
      else if q3 then some "cpa"
      else none) = some "cost") ↔
      (c1 || (c2 && c4) || (c3 && c4) || b1 || b2) = true := by
  cases c1 <;> cases c2 <;> cases c3 <;> cases c4 <;> cases b1 <;> cases b2 <;>
    simp <;> split_ifs <;> simp_all

/-- C8: header normalisation is idempotent on the canonical schema —
re-normalising a table whose headers are already the canonical names
`campaign, imps, clicks, leads, cost, ctr, cvr, cpa` maps each header to
itself. -/
theorem C8_normalise_idempotent_on_canonical :
    normalise_columns canonicalHeaders = canonicalHeaders := by decide

/-- C10: `normalise_columns` does not keep canonical column names unique —
the distinct input headers "Imps" and "Impressions" both match the `imp`
rule, so the output header list contains the duplicate name `imps` twice. -/
theorem C10_duplicate_canonical_names :
    normalise_columns ["Imps", "Impressions"] = ["imps", "imps"] ∧
    ("Imps" : String) ≠ "Impressions" ∧
    ¬ (normalise_columns ["Imps", "Impressions"]).Nodup := by decide

/-- C9 counterexample: the header "gasto total" is mapped to `cost` by the
code although the claim's condition (contains "total cost", or contains
both "cost" and "total", or equals "cost"/"costo") does not cover it, so
the claim's "and for no other header" is false. -/
theorem C9_counterexample_gasto_total :
    normaliseHeader "gasto total" = some "cost" ∧
    costClaimCondition "gasto total" = false := by decide

/-- C9 (amended): for every header on which no earlier rule (campaign,
imps, clicks, leads) fires, `normaliseHeader` maps it to `cost` iff it
contains "total cost", or contains both "cost" and "total", or contains
both "gasto" and "total", or equals "cost" or "costo" exactly. -/
theorem C9_cost_rule (h : String) (hE : earlierRuleMatches h = false) :
    (normaliseHeader h = some "cost") ↔ costRuleAmended h = true := by
  unfold earlierRuleMatches at hE
  unfold normaliseHeader costRuleAmended
  simp only [Bool.or_eq_false_iff] at hE
  obtain ⟨⟨⟨⟨⟨hA, hB⟩, hC⟩, hD⟩, hE2⟩, ⟨hF, hG⟩, hH⟩ := hE
  simp only [hA, hB, hC, hD, hE2, hF, hG, hH, Bool.or_self, Bool.false_or,
    Bool.or_false, Bool.false_eq_true, if_false]
  exact costBranch _ _ _ _ _ _ _ _ _

/-- C9 witness: the theorem instantiated at the concrete header
"Total Cost", whose earlier rules all fail. -/
theorem C9_cost_rule_witness :
    earlierRuleMatches "Total Cost" = false ∧
    ((normaliseHeader "Total Cost" = some "cost") ↔
      costRuleAmended "Total Cost" = true) :=
  ⟨by decide, C9_cost_rule "Total Cost" (by decide)⟩

/-- C3 counterexample: on a table missing only `leads`, `compute_metrics`
raises, but its message also names `imps` — a column that is present — so
the message does not name exactly the missing column(s). -/
theorem C3_counterexample_fixed_message :
    compute_metrics dfMissingLeads = .error reqColsMsg ∧
    dfMissingLeads.hasImps = true ∧
    strContainsSub reqColsMsg.data "\x27imps\x27".data = true :=
  ⟨rfl, rfl, by decide⟩

/-- C3 (amended): `compute_metrics` raises a validation error iff at least
one of `imps`, `clicks`, `leads` is absent, and the error message is the
one fixed string that names all three required columns. -/
theorem C3_missing_columns_error (df : DataFrame) :
    ((∃ e, compute_metrics df = .error e) ↔
      (df.hasImps = false ∨ df.hasClicks = false ∨ df.hasLeads = false)) ∧
    ∀ e, compute_metrics df = .error e → e = reqColsMsg := by
  rcases hi : df.hasImps <;> rcases hc : df.hasClicks <;> rcases hl : df.hasLeads <;>
    simp [compute_metrics, hi, hc, hl]

/-- C4 (code bug): on a table with the required columns but no cost column
and at least one row, the pipeline does NOT complete — the per-campaign
diagnosis reads `row[cpa]` unguarded and raises a `KeyError`. -/
theorem C4_missing_cost_keyerror :
    analyse dfNoCost = .error (keyErr "cpa") := rfl

/-- C5: the end-to-end example — A: ctr = 0.02, cvr = 0.10, cpa = 50;
B: ctr = 0.005, cvr = 0, cpa = null; mean ctr = 0.0125, mean cvr = 0.05;
B's ctr is strictly below 0.6 times the mean ctr and B is flagged low CTR
(and low CVR), while A gets only the balanced note. -/
theorem C5_end_to_end_example :
    compute_metrics exDf = .ok exDf2 ∧
    exDf2.rows.map (fun r => (r.ctr, r.cvr, r.cpa)) =
      [(0.02, 0.10, some 50), (0.005, 0, none)] ∧
    dfMeanCtr exDf2 = 0.0125 ∧ dfMeanCvr exDf2 = 0.05 ∧
    ((0.005 : ℚ) < 0.6 * 0.0125) ∧
    print_detailed_recommendations exDf2 =
      .ok [[msgBalanced], [msgLowCtr, msgLowCvr]] := by
  refine ⟨?_, ?_, ?_, ?_, ?_, ?_⟩
  · norm_num [compute_metrics, computeCtrRow, computeCvrRow, computeCpaRow,
      exDf, exDf2, rowA, rowB]
  · norm_num [exDf2, rowA, rowB]
  · norm_num [dfMeanCtr, meanQ, exDf2, rowA, rowB]
  · norm_num [dfMeanCvr, meanQ, exDf2, rowA, rowB]
  · norm_num
  · norm_num [print_detailed_recommendations, diagnoseRows, diagnose_row,
      dfMeanCtr, dfMeanCvr, dfMeanCpa, meanQ, exDf2, rowA, rowB,
      List.filterMap_cons, List.filterMap_nil]
    exact List.cons_ne_nil _ _

/-- C1: when the required columns are present and ctr/cvr are not,
`compute_metrics` succeeds and on every output row ctr is clicks/imps
forced to 0 wherever imps ≤ 0, and cvr is leads/clicks forced to 0
wherever clicks ≤ 0 (the guarded division is total: no exception and no
NaN/Inf value can appear). -/
theorem C1_ctr_cvr_guarded (df : DataFrame)
    (hImps : df.hasImps = true) (hClicks : df.hasClicks = true)
    (hLeads : df.hasLeads = true) (hCtr : df.hasCtr = false)
    (hCvr : df.hasCvr = false) :
    ∃ df2, compute_metrics df = .ok df2 ∧
      ∀ r ∈ df2.rows,
        (r.imps ≤ 0 → r.ctr = 0) ∧
        (0 < r.imps → r.ctr = r.clicks / r.imps) ∧
        (r.clicks ≤ 0 → r.cvr = 0) ∧
        (0 < r.clicks → r.cvr = r.leads / r.clicks) := by
  simp [compute_metrics, hImps, hClicks, hLeads, hCtr, hCvr]
  split_ifs <;>
    (intro r hr
     simp only [List.mem_map, Function.comp_apply] at hr
     obtain ⟨r0, hr0, rfl⟩ := hr
     simp only [computeCpaRow, computeCvrRow, computeCtrRow]
     exact ⟨fun h => if_neg (not_lt.mpr h), fun h => if_pos h,
       fun h => if_neg (not_lt.mpr h), fun h => if_pos h⟩)

/-- C1 witness: the guarded-division theorem applied to the concrete
example table. -/
theorem C1_ctr_cvr_guarded_witness :
    exDf.hasImps = true ∧ exDf.hasClicks = true ∧ exDf.hasLeads = true ∧
    exDf.hasCtr = false ∧ exDf.hasCvr = false ∧
    (∃ df2, compute_metrics exDf = .ok df2 ∧
      ∀ r ∈ df2.rows,
        (r.imps ≤ 0 → r.ctr = 0) ∧
        (0 < r.imps → r.ctr = r.clicks / r.imps) ∧
        (r.clicks ≤ 0 → r.cvr = 0) ∧
        (0 < r.clicks → r.cvr = r.leads / r.clicks)) :=
  ⟨rfl, rfl, rfl, rfl, rfl, C1_ctr_cvr_guarded exDf rfl rfl rfl rfl rfl⟩

/-- The dropna aggregation of `print_overall_summary` reads exactly the
non-null cpa values: `filterMap` over cpa equals filtering the rows with a
non-null cpa and taking their values. -/
lemma filterMap_cpa_eq_spec (rows : List Row) :
    rows.filterMap (fun r => r.cpa) = specNonNullCpaValues rows := by
  induction rows with
  | nil => rfl
  | cons r rs ih =>
      rcases h : r.cpa with _ | c <;>
        simp [specNonNullCpaValues, List.filterMap_cons, List.filter_cons, h, ih]

/-- C2: with a cost column present (and no precomputed cpa),
`compute_metrics` succeeds; on every output row cpa is cost/leads when
leads > 0 and the null marker `none` — distinct from `some 0` — when
leads ≤ 0; and the overall summary's mean cpa is computed from exactly
the rows whose cpa is non-null. -/
theorem C2_cpa_null_semantics (df : DataFrame)
    (hImps : df.hasImps = true) (hClicks : df.hasClicks = true)
    (hLeads : df.hasLeads = true) (hCost : df.hasCost = true)
    (hCpa : df.hasCpa = false) :
    ∃ df2, compute_metrics df = .ok df2 ∧
      (∀ r ∈ df2.rows,
        (r.leads ≤ 0 → r.cpa = none) ∧
        (0 < r.leads → r.cpa = some (r.cost / r.leads)) ∧
        (r.leads ≤ 0 → r.cpa ≠ some 0)) ∧
      dfMeanCpa df2 = some (meanQ (specNonNullCpaValues df2.rows)) := by
  simp [compute_metrics, hImps, hClicks, hLeads, hCost, hCpa]
  split_ifs <;> constructor <;>
    first
      | (intro r hr
         simp only [List.mem_map, Function.comp_apply] at hr
         obtain ⟨r0, hr0, rfl⟩ := hr
         simp only [computeCpaRow, computeCvrRow, computeCtrRow]
         refine ⟨fun h => if_neg (not_lt.mpr h), fun h => if_pos h, fun h => ?_⟩
         rw [if_neg (not_lt.mpr h)]
         exact fun hc => Option.noConfusion hc)
      | (simp only [dfMeanCpa]
         rw [if_pos trivial, filterMap_cpa_eq_spec])
      | simp_all

/-- C2 witness: the cpa-null theorem applied to the concrete example
table. -/
theorem C2_cpa_null_semantics_witness :
    exDf.hasImps = true ∧ exDf.hasClicks = true ∧ exDf.hasLeads = true ∧
    exDf.hasCost = true ∧ exDf.hasCpa = false ∧
    (∃ df2, compute_metrics exDf = .ok df2 ∧
      (∀ r ∈ df2.rows,
        (r.leads ≤ 0 → r.cpa = none) ∧
        (0 < r.leads → r.cpa = some (r.cost / r.leads)) ∧
        (r.leads ≤ 0 → r.cpa ≠ some 0)) ∧
      dfMeanCpa df2 = some (meanQ (specNonNullCpaValues df2.rows))) :=
  ⟨rfl, rfl, rfl, rfl, rfl, C2_cpa_null_semantics exDf rfl rfl rfl rfl rfl⟩

/-- C7: the diagnosis thresholds are strict — each flag fires iff its
strict inequality holds, so a row sitting exactly on 0.6 times the mean
ctr (resp. 0.6 times the mean cvr, 1.5 times the mean cpa) is not
flagged. -/
theorem C7_strict_thresholds (r : Row) (mc mv mp : ℚ) :
    (msgLowCtr ∈ diagnose_row r mc mv mp ↔ r.ctr < mc * 0.6) ∧
    (msgLowCvr ∈ diagnose_row r mc mv mp ↔ r.cvr < mv * 0.6) ∧
    (msgHighCpa ∈ diagnose_row r mc mv mp ↔ ∃ c, r.cpa = some c ∧ mp * 1.5 < c) ∧
    (r.ctr = 0.6 * mc → msgLowCtr ∉ diagnose_row r mc mv mp) ∧
    (r.cvr = 0.6 * mv → msgLowCvr ∉ diagnose_row r mc mv mp) ∧
    (r.cpa = some (1.5 * mp) → msgHighCpa ∉ diagnose_row r mc mv mp) := by
  have d1 : msgLowCtr ≠ msgLowCvr := by decide
  have d2 : msgLowCtr ≠ msgHighCpa := by decide
  have d3 : msgLowCtr ≠ msgBalanced := by decide
  have d4 : msgLowCvr ≠ msgHighCpa := by decide
  have d5 : msgLowCvr ≠ msgBalanced := by decide
  have d6 : msgHighCpa ≠ msgBalanced := by decide
  have key : (msgLowCtr ∈ diagnose_row r mc mv mp ↔ r.ctr < mc * 0.6) ∧
      (msgLowCvr ∈ diagnose_row r mc mv mp ↔ r.cvr < mv * 0.6) ∧
      (msgHighCpa ∈ diagnose_row r mc mv mp ↔
        ∃ c, r.cpa = some c ∧ mp * 1.5 < c) := by
    unfold diagnose_row
    rcases hc : r.cpa with _ | c
    · by_cases h1 : r.ctr < mc * 0.6 <;> by_cases h2 : r.cvr < mv * 0.6 <;>
        simp [hc, h1, h2, d1, d2, d3, d4, d5, d6,
          d1.symm, d2.symm, d3.symm, d4.symm, d5.symm, d6.symm]
    · by_cases h1 : r.ctr < mc * 0.6 <;> by_cases h2 : r.cvr < mv * 0.6 <;>
        by_cases h3 : mp * 1.5 < c <;>
        simp [hc, h1, h2, h3, d1, d2, d3, d4, d5, d6,
          d1.symm, d2.symm, d3.symm, d4.symm, d5.symm, d6.symm]
  refine ⟨key.1, key.2.1, key.2.2, fun he => ?_, fun he => ?_, fun he => ?_⟩
  · rw [key.1, he, mul_comm]
    exact lt_irrefl _
  · rw [key.2.1, he, mul_comm]
    exact lt_irrefl _
  · rw [key.2.2]
    rintro ⟨c, hcc, hlt⟩
    rw [he, Option.some.injEq] at hcc
    rw [← hcc, mul_comm] at hlt
    exact lt_irrefl _ hlt

/-- Correctness of sort-then-take selection: the first `n` elements of a
stable sort are a sub-permutation of the pool bounded by everything left
out. -/
lemma take_drop_sorted_spec {α : Type} (r : α → α → Prop) [DecidableRel r]
    [IsTotal α r] [IsTrans α r] (l : List α) (n : Nat) :
    ((List.insertionSort r l).take n ++ (List.insertionSort r l).drop n).Perm l ∧
      ((List.insertionSort r l).take n).length = min n l.length ∧
      ∀ a ∈ (List.insertionSort r l).take n,
        ∀ b ∈ (List.insertionSort r l).drop n, r a b := by
  refine ⟨?_, ?_, ?_⟩
  · rw [List.take_append_drop]
    exact List.perm_insertionSort r l
  · rw [List.length_take, (List.perm_insertionSort r l).length_eq]
  · have hs : List.Pairwise r (List.insertionSort r l) :=
      List.sorted_insertionSort r l
    rw [← List.take_append_drop n (List.insertionSort r l)] at hs
    exact (List.pairwise_append.mp hs).2.2

/-- C6: whenever `show_top_bottom` with N = 3 returns a (best, worst)
pair, then for metric "cpa" best is 3 rows of smallest cpa and worst is 3
rows of largest cpa (each bounded by every unselected row, over the rows
that have a non-null value), and for every other metric the direction is
reversed. -/
theorem C6_ranking_directions (df : DataFrame) (m : String) (best worst : List Row)
    (h : show_top_bottom df m 3 = some (best, worst)) :
    (m = "cpa" →
      isBottomSelection m 3 (metricRows m df.rows) best ∧
      isTopSelection m 3 (metricRows m df.rows) worst) ∧
    (m ≠ "cpa" →
      isTopSelection m 3 (metricRows m df.rows) best ∧
      isBottomSelection m 3 (metricRows m df.rows) worst) := by
  have hA := take_drop_sorted_spec (ascBy m) (metricRows m df.rows) 3
  have hD := take_drop_sorted_spec (descBy m) (metricRows m df.rows) 3
  unfold show_top_bottom at h
  by_cases hdm : dfHasMetric df m
  · rw [if_neg (by simp [hdm])] at h
    by_cases hm : m = "cpa"
    · rw [if_pos hm] at h
      simp only [Option.some.injEq, Prod.mk.injEq] at h
      obtain ⟨hb, hw⟩ := h
      subst hb; subst hw
      refine ⟨fun _ => ⟨?_, ?_⟩, fun hne => absurd hm hne⟩
      · exact ⟨hA.2.1, _, hA.1, hA.2.2⟩
      · exact ⟨hD.2.1, _, hD.1, hD.2.2⟩
    · rw [if_neg hm] at h
      simp only [Option.some.injEq, Prod.mk.injEq] at h
      obtain ⟨hb, hw⟩ := h
      subst hb; subst hw
      refine ⟨fun heq => absurd heq hm, fun _ => ⟨?_, ?_⟩⟩
      · exact ⟨hD.2.1, _, hD.1, hD.2.2⟩
      · exact ⟨hA.2.1, _, hA.1, hA.2.2⟩
  · rw [if_pos (by simp [hdm])] at h
    exact absurd h (by simp)

/-- C6 witness: the ranking theorem applied to the concrete four-row cpa
table, whose best three and worst three rows are computed by `decide`. -/
theorem C6_ranking_directions_witness :
    ("cpa" = "cpa" →
      isBottomSelection "cpa" 3 (metricRows "cpa" dfC6.rows)
        [rowW "W2" 1, rowW "W4" 2, rowW "W3" 3] ∧
      isTopSelection "cpa" 3 (metricRows "cpa" dfC6.rows)
        [rowW "W1" 4, rowW "W3" 3, rowW "W4" 2]) ∧
    (("cpa" : String) ≠ "cpa" →
      isTopSelection "cpa" 3 (metricRows "cpa" dfC6.rows)
        [rowW "W2" 1, rowW "W4" 2, rowW "W3" 3] ∧
      isBottomSelection "cpa" 3 (metricRows "cpa" dfC6.rows)
        [rowW "W1" 4, rowW "W3" 3, rowW "W4" 2]) :=
  C6_ranking_directions dfC6 "cpa"
    [rowW "W2" 1, rowW "W4" 2, rowW "W3" 3]
    [rowW "W1" 4, rowW "W3" 3, rowW "W4" 2] (by decide)
